import Mathlib

/-!
# DC measurement test method (`Origen::TestMethod::DCMeasurement`)

A shallow embedding of `v93k/src/origen/origen/test_method/dc_measurement.hpp`.

* The member variables of the class form the record `DCMeasurement`.
* Everything the method obtains from the tester platform or from the `Base`
  class (site lists, labels, limits, gate callbacks, RDI results) is a field of
  the record `Platform`.
* Every call the method issues to the platform is recorded, in program order,
  as an `Action`; a run returns the final member variables, the list of actions
  and the first out-of-range vector access, if any.
* `double` values are only stored, forwarded and compared by this code, so the
  embedding is parametric in their carrier `V` (a linear order with the integers
  embedded, used for the literals `0` and `1` and for `int` arguments).
* The local `physicalSites` is a 32-bit `int`: the sum `physicalSites + 1` is
  computed with `wrapInt32`, and a platform answers a count of configured sites
  that leaves room for this sum (`Platform.configuredSitesFit`).
-/

namespace Origen
namespace TestMethod

/-! ## Platform types -/

/-- Comparison selectors of the platform namespace `TM` used in limit objects. -/
inductive COMPARE where
  | NA
  | LT
  | LE
  | GT
  | GE

/-- Modelled from the spec: the platform type `LIMIT` is declared outside the
sources at hand. A limit holds a comparison operator and a threshold for the low
bound and for the high bound; a value passes iff it satisfies all configured
comparisons (`LIMIT(TM::GE, 1, TM::LE, 1)` reads `value >= 1` and `value <= 1`). -/
structure LIMIT (V : Type) where
  lowOp : COMPARE
  low : V
  highOp : COMPARE
  high : V

/-- One comparison `value op threshold`; `NA` means the bound is not configured. -/
def COMPARE.holds {V : Type} [LinearOrder V] : COMPARE → V → V → Bool
  | .NA, _, _ => true
  | .LT, v, t => decide (v < t)
  | .LE, v, t => decide (v ≤ t)
  | .GT, v, t => decide (v > t)
  | .GE, v, t => decide (v ≥ t)

/-- Modelled from the spec: a value passes a limit iff it satisfies all
configured comparisons. -/
def LIMIT.passes {V : Type} [LinearOrder V] (l : LIMIT V) (v : V) : Bool :=
  l.lowOp.holds v l.low && l.highOp.holds v l.high

/-- Relay selectors of the platform namespace `TA` used by the DC measurement. -/
inductive Relay where
  | ppmuRly_onPPMU_offACDC
  | ppmuRly_onAC_offDCPPMU

/-- The forcing part of an RDI DC measurement: `.iForce(v)` or `.vForce(v)`. -/
inductive Force (V : Type) where
  | iForce (v : V)
  | vForce (v : V)

/-- The measuring part of an RDI DC measurement: `.vMeas()` or `.iMeas()`. -/
inductive Meas where
  | vMeas
  | iMeas

/-- The settings accumulated by the fluent builder `rdi.dc(id)`; a setting that
was not called is `none`. -/
structure DcBuilder (V : Type) where
  id : String
  pin : Option String
  force : Option (Force V)
  relay : Option (Relay × Relay)
  measWait : Option V
  iRange : Option Int
  meas : Option Meas

/-- The builder returned by `rdi.dc(id)`. -/
def rdi_dc {V : Type} (id : String) : DcBuilder V :=
  { id := id, pin := none, force := none, relay := none, measWait := none,
    iRange := none, meas := none }

/-- Calls issued by the test method, in program order. -/
inductive Action (V : Type) where
  | RDI_INIT
  | enableHiddenUpload
  | extractPinsFromGroup (group : String)
  | GET_LIMIT_OBJECT (name : String)
  | autorange (force : V)
  | RDI_BEGIN
  | preTestFunc
  | funcExecute (id : String) (label : String)
  | holdStateFunc
  | dcExecute (d : DcBuilder V)
  | RDI_END
  | postTestFunc
  | getPassFail (id : String) (site : Int)
  | getValue (id : String) (site : Int)
  | asyncProcessing
  | finalProcessing
  | judgeAndLog_FunctionalTest (value : Int)
  | judgeAndLog_ParametricTest (pin : String) (suite : String) (limits : LIMIT V) (value : V)
  | processFunc
  | SMC_TEST (site : Int) (pin : String) (suite : String) (limits : LIMIT V) (value : V)
  | postProcessFunc

/-- What the tester platform and the `Base` callbacks answer during one run. -/
structure Platform (V : Type) where
  -- the active sites filled in by GET_ACTIVE_SITES, in platform order
  GET_ACTIVE_SITES : List Int
  -- the number of configured sites returned by GET_CONFIGURED_SITES, a count
  -- held in the int physicalSites and small enough for the int physicalSites + 1
  GET_CONFIGURED_SITES : Nat
  configuredSitesFit : GET_CONFIGURED_SITES < 2147483647
  GET_TESTSUITE_NAME : String
  -- Primary.getLabel()
  getLabel : String
  extractPinsFromGroup : String → String
  GET_LIMIT_OBJECT : String → LIMIT V
  -- autorange, followed by the conversion to the int member _iRange
  autorange : V → Int
  -- the Base callbacks
  preTestFunc : Bool
  holdStateFunc : Bool
  processFunc : Bool
  filterResult : V → V
  -- rdi.id(id).getPassFail() and rdi.id(id).getValue() on the given site
  getPassFail : String → Int → Bool
  getValue : String → Int → V

/-! ## The class -/

/-- Member variables of `DCMeasurement`. -/
structure DCMeasurement (V : Type) where
  _applyShutdown : Int
  _shutdownPattern : String
  _measure : String
  _settlingTime : V
  _pin : String
  _forceValue : V
  _iRange : Int
  activeSites : List Int
  testSuiteName : String
  label : String
  funcResults : List Int
  results : List V
  limits : LIMIT V

/-- The constructor `DCMeasurement()`: the five defaults it sets; strings and
vectors start empty, the limit object unconfigured. -/
def DCMeasurement.new {V : Type} [IntCast V] : DCMeasurement V :=
  { _applyShutdown := 1
    _shutdownPattern := ""
    _measure := "VOLT"
    _settlingTime := ((0 : Int) : V)
    _pin := ""
    _forceValue := ((0 : Int) : V)
    _iRange := 0
    activeSites := []
    testSuiteName := ""
    label := ""
    funcResults := []
    results := []
    limits := { lowOp := .NA, low := ((0 : Int) : V), highOp := .NA, high := ((0 : Int) : V) } }

/-- An access outside the storage of a vector. -/
inductive Fault where
  | outOfRange (index : Int) (size : Nat)
  deriving DecidableEq

/-- Outcome of running a member function: the member variables afterwards, the
calls issued, and the out-of-range access that stopped the run, if any. -/
structure Run (V : Type) where
  self : DCMeasurement V
  trace : List (Action V)
  fault : Option Fault

/-! ## `std::vector` operations -/

/-- Reduction of an integer to the range of the 32-bit type `int`, from
-2147483648 to 2147483647: the value of an `int` sum. -/
def wrapInt32 (x : Int) : Int :=
  (x + 2147483648) % 4294967296 - 2147483648

/-- The call `v.resize(n)`: keeps the first `n` elements and pads with the
value-initialised element `d`. -/
def resize {α : Type} (xs : List α) (n : Nat) (d : α) : List α :=
  xs.take n ++ List.replicate (n - xs.length) d

/-- Whether `v[site]` addresses an element of a vector of length `size`. -/
def inBounds (site : Int) (size : Nat) : Bool :=
  decide (0 ≤ site) && decide (site.toNat < size)

/-- The read `v[site]`, checked. -/
def readAt {α : Type} (xs : List α) (site : Int) : Option α :=
  if inBounds site xs.length then xs[site.toNat]? else none

/-- The write `v[site] = x`, checked. -/
def writeAt {α : Type} (xs : List α) (site : Int) (x : α) : Option (List α) :=
  if inBounds site xs.length then some (xs.set site.toNat x) else none

/-! ## `DCMeasurement::execute` -/

/-- The configuration at the head of the first-invocation block, from
`enableHiddenUpload()` up to the derivation of `_iRange`. Returns the member
variables afterwards and the calls issued. -/
def configure {V : Type} [IntCast V] (p : Platform V) (self : DCMeasurement V) :
    DCMeasurement V × List (Action V) :=
  let activeSites := p.GET_ACTIVE_SITES
  let physicalSites : Int := p.GET_CONFIGURED_SITES
  let size : Nat := (wrapInt32 (physicalSites + 1)).toNat
  let results := resize self.results size ((0 : Int) : V)
  let funcResults := resize self.funcResults size 0
  let testSuiteName := p.GET_TESTSUITE_NAME
  let label := p.getLabel
  let pin := p.extractPinsFromGroup self._pin
  let shutdownPattern :=
    if self._applyShutdown ≠ 0 then
      if self._shutdownPattern = "" then label ++ "_part1" else self._shutdownPattern
    else self._shutdownPattern
  let limits := p.GET_LIMIT_OBJECT "Functional"
  let derived : Int × List (Action V) :=
    if self._iRange = 0 then
      if self._measure = "CURR" then
        (p.autorange self._forceValue, [.autorange self._forceValue])
      else (self._iRange, [])
    else (self._iRange, [])
  ({ _applyShutdown := self._applyShutdown
     _shutdownPattern := shutdownPattern
     _measure := self._measure
     _settlingTime := self._settlingTime
     _pin := pin
     _forceValue := self._forceValue
     _iRange := derived.1
     activeSites := activeSites
     testSuiteName := testSuiteName
     label := label
     funcResults := funcResults
     results := results
     limits := limits },
    [.enableHiddenUpload, .extractPinsFromGroup self._pin, .GET_LIMIT_OBJECT "Functional"]
      ++ derived.2)

/-- The measurement issued when `_measure == "VOLT"`: force current, measure
voltage. -/
def voltMeasurement {V : Type} (self : DCMeasurement V) : DcBuilder V :=
  { (rdi_dc self.testSuiteName : DcBuilder V) with
    pin := some self._pin
    force := some (.iForce self._forceValue)
    relay := some (.ppmuRly_onPPMU_offACDC, .ppmuRly_onAC_offDCPPMU)
    measWait := some self._settlingTime
    meas := some .vMeas }

/-- The measurement issued otherwise: force voltage, measure current in the
range `_iRange`. -/
def currMeasurement {V : Type} (self : DCMeasurement V) : DcBuilder V :=
  { (rdi_dc self.testSuiteName : DcBuilder V) with
    pin := some self._pin
    force := some (.vForce self._forceValue)
    relay := some (.ppmuRly_onPPMU_offACDC, .ppmuRly_onAC_offDCPPMU)
    measWait := some self._settlingTime
    iRange := some self._iRange
    meas := some .iMeas }

/-- The body of `if (holdStateFunc())`: the single DC measurement. -/
def measurement {V : Type} (self : DCMeasurement V) : List (Action V) :=
  if self._measure = "VOLT" then [.dcExecute (voltMeasurement self)]
  else [.dcExecute (currMeasurement self)]

/-- The body of `if (preTestFunc())`: pretest pattern, gated measurement,
optional shutdown pattern. -/
def pretestBody {V : Type} (p : Platform V) (self : DCMeasurement V) : List (Action V) :=
  [.funcExecute "f1" self.label, .holdStateFunc]
    ++ (if p.holdStateFunc then measurement self else [])
    ++ (if self._applyShutdown ≠ 0 then [.funcExecute "f2" self._shutdownPattern] else [])

/-- From `RDI_BEGIN()` to `postTestFunc()`. -/
def rdiTransaction {V : Type} (p : Platform V) (self : DCMeasurement V) : List (Action V) :=
  [.RDI_BEGIN, .preTestFunc]
    ++ (if p.preTestFunc then pretestBody p self else [])
    ++ [.RDI_END, .postTestFunc]

/-- The result reads of one iteration up to the write `funcResults[site] = ...`;
the right operand of `&&` is read only when the left one is true. -/
def passFailReads {V : Type} (p : Platform V) (site : Int) : List (Action V) :=
  .getPassFail "f1" site :: (if p.getPassFail "f1" site then [.getPassFail "f2" site] else [])

/-- The loop `FOR_EACH_SITE_BEGIN() ... FOR_EACH_SITE_END()` over the given
sites. -/
def forEachSite {V : Type} (p : Platform V) : List Int → DCMeasurement V → Run V
  | [], self => { self := self, trace := [], fault := none }
  | site :: rest, self =>
    let passed := p.getPassFail "f1" site && p.getPassFail "f2" site
    match writeAt self.funcResults site (if passed then 1 else 0) with
    | none =>
      { self := self, trace := passFailReads p site,
        fault := some (.outOfRange site self.funcResults.length) }
    | some fr =>
      let self := { self with funcResults := fr }
      let reads := passFailReads p site ++ [.getValue self.testSuiteName site]
      match writeAt self.results site (p.getValue self.testSuiteName site) with
      | none =>
        { self := self, trace := reads, fault := some (.outOfRange site self.results.length) }
      | some rs =>
        let r := forEachSite p rest { self with results := rs }
        { self := r.self, trace := reads ++ r.trace, fault := r.fault }

/-- The member function `DCMeasurement::execute()`; `firstInvocation` tells whether the
block between `ON_FIRST_INVOCATION_BEGIN()` and `ON_FIRST_INVOCATION_END()` runs. -/
def execute {V : Type} [IntCast V] (p : Platform V) (firstInvocation : Bool)
    (self : DCMeasurement V) : Run V :=
  if firstInvocation then
    let c := configure p self
    let r := forEachSite p p.GET_ACTIVE_SITES c.1
    let head := .RDI_INIT :: c.2 ++ rdiTransaction p c.1 ++ r.trace
    match r.fault with
    | some f => { self := r.self, trace := head, fault := some f }
    | none => { self := r.self, trace := head ++ [.asyncProcessing, .finalProcessing], fault := none }
  else
    { self := self, trace := [.RDI_INIT, .finalProcessing], fault := none }

/-! ## Judging -/

/-- The member function `DCMeasurement::serialProcessing(site)`. -/
def serialProcessing {V : Type} (p : Platform V) (self : DCMeasurement V) (site : Int) : Run V :=
  match readAt self.funcResults site with
  | none => { self := self, trace := [], fault := some (.outOfRange site self.funcResults.length) }
  | some f =>
    match readAt self.results site with
    | none =>
      { self := self, trace := [.judgeAndLog_FunctionalTest f],
        fault := some (.outOfRange site self.results.length) }
    | some v =>
      { self := self,
        trace := [.judgeAndLog_FunctionalTest f,
          .judgeAndLog_ParametricTest self._pin self.testSuiteName self.limits (p.filterResult v)],
        fault := none }

/-- The limit object `LIMIT(TM::GE, 1, TM::LE, 1)`. -/
def strictLimit {V : Type} [IntCast V] : LIMIT V :=
  { lowOp := .GE, low := ((1 : Int) : V), highOp := .LE, high := ((1 : Int) : V) }

/-- The loop over `activeSites` in `SMC_backgroundProcessing`, on the sites
still to be visited. -/
def smcLoop {V : Type} [IntCast V] (p : Platform V) (self : DCMeasurement V) :
    List Int → List (Action V) × Option Fault
  | [] => ([], none)
  | site :: rest =>
    match readAt self.funcResults site with
    | none => ([], some (.outOfRange site self.funcResults.length))
    | some f =>
      let first := Action.SMC_TEST site "" self.testSuiteName strictLimit ((f : Int) : V)
      match readAt self.results site with
      | none => ([first], some (.outOfRange site self.results.length))
      | some v =>
        let second := Action.SMC_TEST site self._pin self.testSuiteName self.limits (p.filterResult v)
        let r := smcLoop p self rest
        (first :: second :: r.1, r.2)

/-- The member function `DCMeasurement::SMC_backgroundProcessing()`. -/
def SMC_backgroundProcessing {V : Type} [IntCast V] (p : Platform V) (self : DCMeasurement V) :
    Run V :=
  if p.processFunc then
    let r := smcLoop p self self.activeSites
    match r.2 with
    | some f => { self := self, trace := .processFunc :: r.1, fault := some f }
    | none => { self := self, trace := .processFunc :: r.1 ++ [.postProcessFunc], fault := none }
  else
    { self := self, trace := [.processFunc, .postProcessFunc], fault := none }

/-! ## Classification of calls -/

/-- Execution of an RDI DC measurement. -/
def Action.isDcExecute {V : Type} : Action V → Bool
  | .dcExecute _ => true
  | _ => false

/-- Execution of the RDI pattern run registered under `id`. -/
def Action.isFuncExecute {V : Type} (id : String) : Action V → Bool
  | .funcExecute i _ => i == id
  | _ => false

/-- The calls `RDI_BEGIN()` and `RDI_END()`. -/
def Action.isBracket {V : Type} : Action V → Bool
  | .RDI_BEGIN => true
  | .RDI_END => true
  | _ => false

/-- A pattern execution or a measurement. -/
def Action.isPatternOrMeasurement {V : Type} : Action V → Bool
  | .funcExecute _ _ => true
  | .dcExecute _ => true
  | _ => false

/-- A per-site result read, `getPassFail()` or `getValue()`. -/
def Action.isResultRead {V : Type} : Action V → Bool
  | .getPassFail _ _ => true
  | .getValue _ _ => true
  | _ => false

/-- The call `postTestFunc()` or a per-site result read. -/
def Action.isPostOrRead {V : Type} : Action V → Bool
  | .postTestFunc => true
  | a => a.isResultRead

/-- The calls issued between `RDI_BEGIN()` and `postTestFunc()`, both included. -/
def Action.inTransaction {V : Type} : Action V → Bool
  | .RDI_BEGIN => true
  | .preTestFunc => true
  | .funcExecute _ _ => true
  | .holdStateFunc => true
  | .dcExecute _ => true
  | .RDI_END => true
  | .postTestFunc => true
  | _ => false

/-! ## A concrete bench -/

/-- A platform with 4 configured sites of which sites 1 and 3 are active; the
pretest pattern passes on site 1 only, the shutdown pattern passes everywhere,
both gates are open. -/
def benchPlatform : Platform Int :=
  { GET_ACTIVE_SITES := [1, 3]
    GET_CONFIGURED_SITES := 4
    configuredSitesFit := by decide
    GET_TESTSUITE_NAME := "dc_meas"
    getLabel := "main"
    extractPinsFromGroup := fun g => g
    GET_LIMIT_OBJECT := fun _ => { lowOp := .GE, low := 0, highOp := .LE, high := 100 }
    autorange := fun v => 10 * v
    preTestFunc := true
    holdStateFunc := true
    processFunc := true
    filterResult := fun v => v
    getPassFail := fun id site => if id = "f1" then decide (site = 1) else true
    getValue := fun _ site => 10 * site }

/-- The default-constructed test method measuring on pin `"vdd"`, forcing 1. -/
def benchVolt : DCMeasurement Int :=
  { (DCMeasurement.new : DCMeasurement Int) with _pin := "vdd", _forceValue := 1 }

/-- The same test method set to measure current, forcing 2, no range given. -/
def benchCurr : DCMeasurement Int :=
  { benchVolt with _measure := "CURR", _forceValue := 2 }

/-- The default-constructed test method with the shutdown switched off. -/
def benchNoShutdown : DCMeasurement Int :=
  { benchVolt with _applyShutdown := 0 }

/-! ## Vector lemmas -/

theorem length_resize {α : Type} (xs : List α) (n : Nat) (d : α) : (resize xs n d).length = n := by
  simp only [resize, List.length_append, List.length_take, List.length_replicate]
  omega

theorem inBounds_iff (site : Int) (size : Nat) :
    inBounds site size = true ↔ 0 ≤ site ∧ site < size := by
  simp only [inBounds, Bool.and_eq_true, decide_eq_true_eq]
  omega

theorem writeAt_eq_some {α : Type} (xs : List α) (site : Int) (x : α)
    (h : inBounds site xs.length = true) : writeAt xs site x = some (xs.set site.toNat x) := by
  simp [writeAt, h]

theorem writeAt_length {α : Type} {xs ys : List α} {site : Int} {x : α}
    (h : writeAt xs site x = some ys) : ys.length = xs.length := by
  unfold writeAt at h
  split at h
  · cases h
    simp
  · cases h

theorem readAt_of_inBounds {α : Type} (xs : List α) (site : Int)
    (h : inBounds site xs.length = true) (d : α) :
    readAt xs site = some (xs.getD site.toNat d) := by
  have hb := (inBounds_iff site xs.length).1 h
  have hlt : site.toNat < xs.length := by omega
  simp [readAt, h, List.getD_eq_getElem?_getD, List.getElem?_eq_getElem hlt]

/-! ## The site loop -/

/-- The site loop only reads results. -/
theorem forEachSite_trace {V : Type} (p : Platform V) (sites : List Int) (self : DCMeasurement V) :
    ∀ a ∈ (forEachSite p sites self).trace, a.isResultRead = true := by
  induction sites generalizing self with
  | nil => simp [forEachSite]
  | cons site rest ih =>
    intro a ha
    unfold forEachSite at ha
    simp only [passFailReads] at ha
    split at ha
    · simp only [List.mem_cons] at ha
      rcases ha with rfl | ha
      · rfl
      · split at ha <;> simp at ha
        subst ha
        rfl
    · split at ha
      · simp only [List.mem_cons, List.mem_append, List.cons_append] at ha
        rcases ha with rfl | ha
        · rfl
        · rcases ha with ha | ha
          · split at ha <;> simp at ha
            subst ha
            rfl
          · simp at ha
            subst ha
            rfl
      · simp only [List.mem_cons, List.mem_append, List.cons_append] at ha
        rcases ha with rfl | ha
        · rfl
        · rcases ha with (ha | ha) | ha
          · split at ha <;> simp at ha
            subst ha
            rfl
          · simp at ha
            subst ha
            rfl
          · exact ih _ a ha

/-- The site loop changes no member variable other than the two result vectors,
and keeps their lengths, whether or not it runs to its end. -/
theorem forEachSite_frame {V : Type} (p : Platform V) (sites : List Int) (self : DCMeasurement V) :
    (forEachSite p sites self).self.funcResults.length = self.funcResults.length ∧
    (forEachSite p sites self).self.results.length = self.results.length ∧
    (forEachSite p sites self).self.activeSites = self.activeSites ∧
    (forEachSite p sites self).self.testSuiteName = self.testSuiteName ∧
    (forEachSite p sites self).self._pin = self._pin ∧
    (forEachSite p sites self).self.limits = self.limits ∧
    (forEachSite p sites self).self._iRange = self._iRange ∧
    (forEachSite p sites self).self._shutdownPattern = self._shutdownPattern := by
  induction sites generalizing self with
  | nil => simp [forEachSite]
  | cons site rest ih =>
    unfold forEachSite
    simp only
    split
    · simp
    · rename_i fr hfr
      split
      · simp [writeAt_length hfr]
      · rename_i rs hrs
        have h := ih { self with funcResults := fr, results := rs }
        simp only [writeAt_length hfr, writeAt_length hrs] at h ⊢
        exact h

theorem forEachSite_cons_ok {V : Type} (p : Platform V) (site : Int) (rest : List Int)
    (self : DCMeasurement V)
    (h1 : inBounds site self.funcResults.length = true)
    (h2 : inBounds site self.results.length = true) :
    forEachSite p (site :: rest) self =
      { self := (forEachSite p rest { self with
            funcResults := self.funcResults.set site.toNat
              (if (p.getPassFail "f1" site && p.getPassFail "f2" site) = true then 1 else 0)
            results := self.results.set site.toNat (p.getValue self.testSuiteName site) }).self
        trace := passFailReads p site ++ [.getValue self.testSuiteName site] ++
          (forEachSite p rest { self with
            funcResults := self.funcResults.set site.toNat
              (if (p.getPassFail "f1" site && p.getPassFail "f2" site) = true then 1 else 0)
            results := self.results.set site.toNat (p.getValue self.testSuiteName site) }).trace
        fault := (forEachSite p rest { self with
            funcResults := self.funcResults.set site.toNat
              (if (p.getPassFail "f1" site && p.getPassFail "f2" site) = true then 1 else 0)
            results := self.results.set site.toNat (p.getValue self.testSuiteName site) }).fault } := by
  rw [forEachSite]
  simp only [writeAt_eq_some _ _ _ h1, writeAt_eq_some _ _ _ h2]

/-- With every visited site inside both vectors the loop runs to its end, and
afterwards slot `i` holds the value written for site `i` if site `i` was
visited and its old value otherwise. -/
theorem forEachSite_spec {V : Type} (p : Platform V) (sites : List Int) (self : DCMeasurement V)
    (h : ∀ s ∈ sites, inBounds s self.funcResults.length = true ∧
      inBounds s self.results.length = true) :
    (forEachSite p sites self).fault = none ∧
    (∀ i : Nat, (forEachSite p sites self).self.funcResults[i]? =
      if (i : Int) ∈ sites then
        some (if (p.getPassFail "f1" i && p.getPassFail "f2" i) = true then 1 else 0)
      else self.funcResults[i]?) ∧
    (∀ i : Nat, (forEachSite p sites self).self.results[i]? =
      if (i : Int) ∈ sites then some (p.getValue self.testSuiteName i) else self.results[i]?) := by
  induction sites generalizing self with
  | nil => simp [forEachSite]
  | cons site rest ih =>
    obtain ⟨h1, h2⟩ := h site (List.mem_cons_self _ _)
    rw [forEachSite_cons_ok p site rest self h1 h2]
    have hb1 := (inBounds_iff _ _).1 h1
    have hb2 := (inBounds_iff _ _).1 h2
    have ih' := ih { self with
            funcResults := self.funcResults.set site.toNat
              (if (p.getPassFail "f1" site && p.getPassFail "f2" site) = true then 1 else 0)
            results := self.results.set site.toNat (p.getValue self.testSuiteName site) }
      (by
        intro s hs
        simpa using h s (List.mem_cons_of_mem _ hs))
    obtain ⟨f0, f1, f2⟩ := ih'
    refine ⟨f0, ?_, ?_⟩
    · intro i
      simp only [f1 i, List.mem_cons, List.getElem?_set]
      by_cases hi : (i : Int) ∈ rest
      · simp [hi]
      · by_cases hs : (i : Int) = site
        · subst hs
          have : (i : Int).toNat = i := by simp
          simp [hi]
          omega
        · have hne : ¬ site.toNat = i := by omega
          simp [hi, hs, hne]
    · intro i
      simp only [f2 i, List.mem_cons, List.getElem?_set]
      by_cases hi : (i : Int) ∈ rest
      · simp [hi]
      · by_cases hs : (i : Int) = site
        · subst hs
          simp [hi]
          omega
        · have hne : ¬ site.toNat = i := by omega
          simp [hi, hs, hne]

/-! ## Configuration and shape of a run -/

/-- The sum `physicalSites + 1` does not wrap: it is the count plus one, also as
the size passed to `resize`. -/
theorem physicalSites_succ {V : Type} (p : Platform V) :
    wrapInt32 ((p.GET_CONFIGURED_SITES : Int) + 1) = (p.GET_CONFIGURED_SITES : Int) + 1 ∧
    (wrapInt32 ((p.GET_CONFIGURED_SITES : Int) + 1)).toNat = p.GET_CONFIGURED_SITES + 1 := by
  have h := p.configuredSitesFit
  unfold wrapInt32
  omega

/-- The member variables after the configuration, one by one. -/
theorem configure_self {V : Type} [IntCast V] (p : Platform V) (self : DCMeasurement V) :
    (configure p self).1 =
      { _applyShutdown := self._applyShutdown
        _shutdownPattern :=
          if self._applyShutdown ≠ 0 ∧ self._shutdownPattern = "" then p.getLabel ++ "_part1"
          else self._shutdownPattern
        _measure := self._measure
        _settlingTime := self._settlingTime
        _pin := p.extractPinsFromGroup self._pin
        _forceValue := self._forceValue
        _iRange :=
          if self._iRange = 0 ∧ self._measure = "CURR" then p.autorange self._forceValue
          else self._iRange
        activeSites := p.GET_ACTIVE_SITES
        testSuiteName := p.GET_TESTSUITE_NAME
        label := p.getLabel
        funcResults := resize self.funcResults (p.GET_CONFIGURED_SITES + 1) 0
        results := resize self.results (p.GET_CONFIGURED_SITES + 1) ((0 : Int) : V)
        limits := p.GET_LIMIT_OBJECT "Functional" } := by
  unfold configure
  by_cases h1 : self._applyShutdown = 0 <;> by_cases h2 : self._shutdownPattern = "" <;>
    by_cases h3 : self._iRange = 0 <;> by_cases h4 : self._measure = "CURR" <;>
    simp [h1, h2, h3, h4, (physicalSites_succ p).2]

/-- The calls issued by the configuration. -/
theorem configure_trace {V : Type} [IntCast V] (p : Platform V) (self : DCMeasurement V) :
    (configure p self).2 =
      [.enableHiddenUpload, .extractPinsFromGroup self._pin, .GET_LIMIT_OBJECT "Functional"] ++
        (if self._iRange = 0 ∧ self._measure = "CURR" then [.autorange self._forceValue]
         else []) := by
  unfold configure
  by_cases h1 : self._applyShutdown = 0 <;> by_cases h2 : self._shutdownPattern = "" <;>
    by_cases h3 : self._iRange = 0 <;> by_cases h4 : self._measure = "CURR" <;>
    simp [h1, h2, h3, h4]

/-- Shape of the list of calls of a first invocation. -/
theorem execute_trace {V : Type} [IntCast V] (p : Platform V) (self : DCMeasurement V) :
    (execute p true self).trace =
      .RDI_INIT :: (configure p self).2 ++ rdiTransaction p (configure p self).1 ++
        (forEachSite p p.GET_ACTIVE_SITES (configure p self).1).trace ++
        (if (forEachSite p p.GET_ACTIVE_SITES (configure p self).1).fault = none then
          [.asyncProcessing, .finalProcessing] else []) := by
  unfold execute
  simp only [if_true]
  split <;> rename_i h <;> simp [h]

theorem execute_self {V : Type} [IntCast V] (p : Platform V) (self : DCMeasurement V) :
    (execute p true self).self = (forEachSite p p.GET_ACTIVE_SITES (configure p self).1).self := by
  unfold execute
  simp only [if_true]
  split <;> rfl

theorem execute_fault {V : Type} [IntCast V] (p : Platform V) (self : DCMeasurement V) :
    (execute p true self).fault = (forEachSite p p.GET_ACTIVE_SITES (configure p self).1).fault := by
  unfold execute
  simp only [if_true]
  split <;> rename_i h <;> simp [h]

/-! ## Judging lemmas -/

theorem serialProcessing_self {V : Type} (p : Platform V) (self : DCMeasurement V) (site : Int) :
    (serialProcessing p self site).self = self := by
  unfold serialProcessing
  split
  · rfl
  · split <;> rfl

theorem SMC_backgroundProcessing_self {V : Type} [IntCast V] (p : Platform V)
    (self : DCMeasurement V) : (SMC_backgroundProcessing p self).self = self := by
  unfold SMC_backgroundProcessing
  split
  · simp only
    split <;> rfl
  · rfl

/-- With the site inside both vectors, `serialProcessing` judges the two stored
values of that site. -/
theorem serialProcessing_ok {V : Type} (p : Platform V) (self : DCMeasurement V) (site : Int)
    (d : V) (h1 : inBounds site self.funcResults.length = true)
    (h2 : inBounds site self.results.length = true) :
    serialProcessing p self site =
      { self := self
        trace := [.judgeAndLog_FunctionalTest (self.funcResults.getD site.toNat 0),
          .judgeAndLog_ParametricTest self._pin self.testSuiteName self.limits
            (p.filterResult (self.results.getD site.toNat d))]
        fault := none } := by
  unfold serialProcessing
  rw [readAt_of_inBounds _ _ h1 0, readAt_of_inBounds _ _ h2 d]

/-- With every listed site inside both vectors, the background loop judges the
two stored values of each site, in list order, and runs to its end. -/
theorem smcLoop_ok {V : Type} [IntCast V] (p : Platform V) (self : DCMeasurement V) (d : V)
    (sites : List Int)
    (h : ∀ s ∈ sites, inBounds s self.funcResults.length = true ∧
      inBounds s self.results.length = true) :
    smcLoop p self sites =
      (sites.flatMap fun s =>
        [Action.SMC_TEST s "" self.testSuiteName strictLimit
            (((self.funcResults.getD s.toNat 0 : Int)) : V),
          Action.SMC_TEST s self._pin self.testSuiteName self.limits
            (p.filterResult (self.results.getD s.toNat d))], none) := by
  induction sites with
  | nil => simp [smcLoop]
  | cons site rest ih =>
    obtain ⟨h1, h2⟩ := h site (List.mem_cons_self _ _)
    have ih' := ih (fun s hs => h s (List.mem_cons_of_mem _ hs))
    rw [smcLoop, readAt_of_inBounds _ _ h1 0, readAt_of_inBounds _ _ h2 d]
    simp only [ih', List.flatMap_cons, List.cons_append, List.nil_append]

/-- The strict limit passes the value one and nothing else. -/
theorem strictLimit_passes {V : Type} [LinearOrder V] [IntCast V] (v : V) :
    (strictLimit : LIMIT V).passes v = true ↔ v = ((1 : Int) : V) := by
  simp only [LIMIT.passes, strictLimit, COMPARE.holds, Bool.and_eq_true, decide_eq_true_eq]
  constructor
  · rintro ⟨h1, h2⟩
    exact le_antisymm h2 h1
  · intro h
    subst h
    exact ⟨le_refl _, le_refl _⟩

/-- After a first invocation both vectors have one slot per configured site
plus one, and the instance remembers the active sites. -/
theorem execute_lengths {V : Type} [IntCast V] (p : Platform V) (self : DCMeasurement V) :
    (execute p true self).self.funcResults.length = p.GET_CONFIGURED_SITES + 1 ∧
    (execute p true self).self.results.length = p.GET_CONFIGURED_SITES + 1 ∧
    (execute p true self).self.activeSites = p.GET_ACTIVE_SITES := by
  have hf := forEachSite_frame p p.GET_ACTIVE_SITES (configure p self).1
  rw [execute_self]
  refine ⟨?_, ?_, ?_⟩
  · rw [hf.1, configure_self]
    exact length_resize _ _ _
  · rw [hf.2.1, configure_self]
    exact length_resize _ _ _
  · rw [hf.2.2.1, configure_self]

/-- A site between 0 and the configured count addresses a slot of both vectors
at any time after the configuration. -/
theorem inBounds_of_le (s : Int) (n : Nat) (h0 : 0 ≤ s) (h1 : s ≤ n) :
    inBounds s (n + 1) = true := by
  rw [inBounds_iff]
  omega

/-! ## Selecting calls from a run -/

/-- A selection that only picks calls of the transaction part sees nothing
outside of it. -/
theorem filter_execute_trace {V : Type} [IntCast V] (p : Platform V) (self : DCMeasurement V)
    (f : Action V → Bool) (hf : ∀ a, f a = true → a.inTransaction = true) :
    (execute p true self).trace.filter f = (rdiTransaction p (configure p self).1).filter f := by
  have hnot : ∀ l : List (Action V), (∀ a ∈ l, a.inTransaction = false) → l.filter f = [] := by
    intro l hl
    rw [List.filter_eq_nil_iff]
    intro a ha hfa
    have := hf a hfa
    rw [hl a ha] at this
    cases this
  have hcfg : (configure p self).2.filter f = [] := by
    apply hnot
    rw [configure_trace]
    intro a ha
    simp only [List.mem_append, List.mem_cons, List.mem_singleton, List.not_mem_nil, or_false] at ha
    rcases ha with (rfl | rfl | rfl) | ha
    · rfl
    · rfl
    · rfl
    · split at ha
      · simp only [List.mem_singleton] at ha
        subst ha
        rfl
      · cases ha
  have hloop : (forEachSite p p.GET_ACTIVE_SITES (configure p self).1).trace.filter f = [] := by
    apply hnot
    intro a ha
    have := forEachSite_trace p _ _ a ha
    cases a <;> first | rfl | cases this
  have htail : (if (forEachSite p p.GET_ACTIVE_SITES (configure p self).1).fault = none then
      [Action.asyncProcessing, Action.finalProcessing] else ([] : List (Action V))).filter f = [] := by
    apply hnot
    intro a ha
    split at ha
    · simp only [List.mem_cons, List.mem_singleton, List.not_mem_nil, or_false] at ha
      rcases ha with rfl | rfl <;> rfl
    · cases ha
  have hinit : [(Action.RDI_INIT : Action V)].filter f = [] := by
    apply hnot
    intro a ha
    simp only [List.mem_singleton] at ha
    subst ha
    rfl
  rw [execute_trace, List.filter_append, List.filter_append, htail, hloop]
  rw [show (Action.RDI_INIT :: (configure p self).2 ++ rdiTransaction p (configure p self).1) =
    [Action.RDI_INIT] ++ (configure p self).2 ++ rdiTransaction p (configure p self).1 from rfl]
  rw [List.filter_append, List.filter_append, hinit, hcfg]
  simp

/-! ## The claims -/

/-- C1: with every active site inside the result storage, a first invocation of
`execute` runs to its end and stores in `funcResults[s]`, for every active site
`s`, the value 1 when both `rdi.id("f1").getPassFail()` and
`rdi.id("f2").getPassFail()` are true on `s` and the value 0 otherwise, whatever
the gates and `_applyShutdown` are. -/
theorem execute_funcResults {V : Type} [IntCast V] (p : Platform V) (self : DCMeasurement V)
    (h : ∀ s ∈ p.GET_ACTIVE_SITES, 0 ≤ s ∧ s ≤ (p.GET_CONFIGURED_SITES : Int)) :
    (execute p true self).fault = none ∧
    ∀ s ∈ p.GET_ACTIVE_SITES,
      readAt (execute p true self).self.funcResults s =
        some (if (p.getPassFail "f1" s && p.getPassFail "f2" s) = true then 1 else 0) := by
  have hb : ∀ s ∈ p.GET_ACTIVE_SITES,
      inBounds s (configure p self).1.funcResults.length = true ∧
      inBounds s (configure p self).1.results.length = true := by
    intro s hs
    rw [configure_self]
    simp only [length_resize]
    exact ⟨inBounds_of_le s _ (h s hs).1 (h s hs).2, inBounds_of_le s _ (h s hs).1 (h s hs).2⟩
  obtain ⟨h0, h1, -⟩ := forEachSite_spec p p.GET_ACTIVE_SITES (configure p self).1 hb
  refine ⟨by rw [execute_fault]; exact h0, ?_⟩
  intro s hs
  have hlen := (execute_lengths p self).1
  have hin : inBounds s (execute p true self).self.funcResults.length = true := by
    rw [hlen]
    exact inBounds_of_le s _ (h s hs).1 (h s hs).2
  have hs0 : ((s.toNat : Nat) : Int) = s := Int.toNat_of_nonneg (h s hs).1
  have := h1 s.toNat
  rw [hs0, if_pos hs] at this
  simp only [readAt, hin, if_true]
  rw [execute_self]
  exact this

/-- C1, on the bench: sites 1 and 3 active out of 4 configured ones. -/
theorem execute_funcResults_witness :
    (∀ s ∈ benchPlatform.GET_ACTIVE_SITES, 0 ≤ s ∧ s ≤ (benchPlatform.GET_CONFIGURED_SITES : Int)) ∧
    ((execute benchPlatform true benchVolt).fault = none ∧
      ∀ s ∈ benchPlatform.GET_ACTIVE_SITES,
        readAt (execute benchPlatform true benchVolt).self.funcResults s =
          some (if (benchPlatform.getPassFail "f1" s && benchPlatform.getPassFail "f2" s) = true
            then 1 else 0)) :=
  ⟨by decide, execute_funcResults benchPlatform benchVolt (by decide)⟩

/-- C2, as stated, fails: the default test method (measuring `"VOLT"`, no
current range) forcing 1 is configured without any error; the RDI transaction is
opened, the pretest pattern is run and the measurement is issued. -/
theorem volt_without_range_runs :
    benchVolt._measure = "VOLT" ∧ benchVolt._iRange = 0 ∧ benchVolt._forceValue = 1 ∧
    (execute benchPlatform true benchVolt).fault = none ∧
    (execute benchPlatform true benchVolt).trace.filter Action.isBracket =
      [.RDI_BEGIN, .RDI_END] ∧
    (execute benchPlatform true benchVolt).trace.filter Action.isPatternOrMeasurement =
      [.funcExecute "f1" "main",
        .dcExecute (voltMeasurement (configure benchPlatform benchVolt).1),
        .funcExecute "f2" "main_part1"] :=
  ⟨by decide, by decide, by decide, by decide, rfl, rfl⟩

/-- C2, amended: with `_measure` equal to `"VOLT"` and no current range, the
first-invocation configuration derives nothing and raises no error: `_iRange`
stays 0, `autorange` is not called, the RDI transaction is opened and closed
once, patterns and measurement follow the gates as usual, and the measurement
takes no current range. The run can only stop early at an active site that is
not a configured site. -/
theorem volt_without_range {V : Type} [IntCast V] (p : Platform V) (self : DCMeasurement V)
    (hm : self._measure = "VOLT") (hr : self._iRange = 0) :
    (configure p self).1._iRange = 0 ∧
    (configure p self).2 =
      [.enableHiddenUpload, .extractPinsFromGroup self._pin, .GET_LIMIT_OBJECT "Functional"] ∧
    (execute p true self).trace.filter Action.isBracket = [.RDI_BEGIN, .RDI_END] ∧
    (execute p true self).trace.filter Action.isPatternOrMeasurement =
      (if p.preTestFunc = true then
        [.funcExecute "f1" p.getLabel]
          ++ (if p.holdStateFunc = true then
              [.dcExecute
                { id := p.GET_TESTSUITE_NAME
                  pin := some (p.extractPinsFromGroup self._pin)
                  force := some (.iForce self._forceValue)
                  relay := some (.ppmuRly_onPPMU_offACDC, .ppmuRly_onAC_offDCPPMU)
                  measWait := some self._settlingTime
                  iRange := none
                  meas := some .vMeas }]
            else [])
          ++ (if self._applyShutdown ≠ 0 then
              [.funcExecute "f2"
                (if self._shutdownPattern = "" then p.getLabel ++ "_part1"
                 else self._shutdownPattern)]
            else [])
      else []) ∧
    ((execute p true self).fault = none ∨
      ∃ s ∈ p.GET_ACTIVE_SITES, ¬ (0 ≤ s ∧ s ≤ (p.GET_CONFIGURED_SITES : Int))) := by
  have hne : ¬ self._measure = "CURR" := by
    rw [hm]
    decide
  refine ⟨?_, ?_, ?_, ?_, ?_⟩
  · rw [configure_self]
    simp [hr, hne]
  · rw [configure_trace]
    simp [hne]
  · rw [filter_execute_trace p self _ (by intro a ha; cases a <;> first | rfl | cases ha)]
    unfold rdiTransaction pretestBody measurement
    cases p.preTestFunc <;> cases p.holdStateFunc <;>
      by_cases h1 : (configure p self).1._applyShutdown = 0 <;>
      by_cases h3 : (configure p self).1._measure = "VOLT" <;>
      simp [h1, h3, List.filter, Action.isBracket]
  · rw [filter_execute_trace p self _ (by intro a ha; cases a <;> first | rfl | cases ha)]
    rw [configure_self]
    unfold rdiTransaction pretestBody measurement voltMeasurement rdi_dc
    cases p.preTestFunc <;> cases p.holdStateFunc <;>
      by_cases h1 : self._applyShutdown = 0 <;> by_cases h2 : self._shutdownPattern = "" <;>
      simp [h1, h2, hm, List.filter, Action.isPatternOrMeasurement]
  · by_cases hall : ∀ s ∈ p.GET_ACTIVE_SITES, 0 ≤ s ∧ s ≤ (p.GET_CONFIGURED_SITES : Int)
    · left
      have hb : ∀ s ∈ p.GET_ACTIVE_SITES,
          inBounds s (configure p self).1.funcResults.length = true ∧
          inBounds s (configure p self).1.results.length = true := by
        intro s hs
        rw [configure_self]
        simp only [length_resize]
        exact ⟨inBounds_of_le s _ (hall s hs).1 (hall s hs).2,
          inBounds_of_le s _ (hall s hs).1 (hall s hs).2⟩
      rw [execute_fault]
      exact (forEachSite_spec p _ _ hb).1
    · right
      push_neg at hall
      obtain ⟨s, hs, hn⟩ := hall
      exact ⟨s, hs, fun h => absurd h.2 (not_le.mpr (hn h.1))⟩

/-- C2 amended, on the bench. -/
theorem volt_without_range_witness :
    (benchVolt._measure = "VOLT" ∧ benchVolt._iRange = 0) ∧
    (configure benchPlatform benchVolt).1._iRange = 0 ∧
    (execute benchPlatform true benchVolt).trace.filter Action.isBracket = [.RDI_BEGIN, .RDI_END] :=
  ⟨by decide, (volt_without_range benchPlatform benchVolt (by decide) (by decide)).1,
    (volt_without_range benchPlatform benchVolt (by decide) (by decide)).2.2.1⟩

/-- C3: with `_measure` equal to `"CURR"`, the first-invocation configuration
sets `_iRange` to `autorange(_forceValue)` when no range was given (`_iRange`
is 0) and leaves a non-zero `_iRange` unchanged; the call to `autorange` comes
before `RDI_BEGIN()`, and the resulting range is the one passed to `.iRange()`
of the measurement whenever the measurement is issued. -/
theorem current_range_derived {V : Type} [IntCast V] (p : Platform V) (self : DCMeasurement V)
    (hm : self._measure = "CURR") :
    (configure p self).1._iRange =
      (if self._iRange = 0 then p.autorange self._forceValue else self._iRange) ∧
    (execute p true self).self._iRange = (configure p self).1._iRange ∧
    (∃ rest : List (Action V),
      (execute p true self).trace =
        .RDI_INIT :: .enableHiddenUpload :: .extractPinsFromGroup self._pin ::
          .GET_LIMIT_OBJECT "Functional" ::
          ((if self._iRange = 0 then [.autorange self._forceValue] else []) ++ .RDI_BEGIN :: rest)) ∧
    (execute p true self).trace.filter Action.isDcExecute =
      (if p.preTestFunc = true ∧ p.holdStateFunc = true then
        [.dcExecute
          { id := p.GET_TESTSUITE_NAME
            pin := some (p.extractPinsFromGroup self._pin)
            force := some (.vForce self._forceValue)
            relay := some (.ppmuRly_onPPMU_offACDC, .ppmuRly_onAC_offDCPPMU)
            measWait := some self._settlingTime
            iRange := some (if self._iRange = 0 then p.autorange self._forceValue
              else self._iRange)
            meas := some .iMeas }]
      else []) := by
  have hne : ¬ self._measure = "VOLT" := by
    rw [hm]
    decide
  refine ⟨?_, ?_, ?_, ?_⟩
  · rw [configure_self]
    simp [hm]
  · rw [execute_self]
    exact (forEachSite_frame p _ _).2.2.2.2.2.2.1
  · refine ⟨.preTestFunc :: ((if p.preTestFunc then pretestBody p (configure p self).1 else [])
      ++ [.RDI_END, .postTestFunc]
      ++ (forEachSite p p.GET_ACTIVE_SITES (configure p self).1).trace
      ++ (if (forEachSite p p.GET_ACTIVE_SITES (configure p self).1).fault = none then
          [.asyncProcessing, .finalProcessing] else [])), ?_⟩
    rw [execute_trace, configure_trace]
    simp [rdiTransaction, hm]
  · rw [filter_execute_trace p self _ (by intro a ha; cases a <;> first | rfl | cases ha)]
    rw [configure_self]
    unfold rdiTransaction pretestBody measurement currMeasurement rdi_dc
    cases p.preTestFunc <;> cases p.holdStateFunc <;>
      by_cases h1 : self._applyShutdown = 0 <;>
      simp [h1, hm, List.filter, Action.isDcExecute]

/-- C3, on the bench: measuring current, forcing 2, no range given. -/
theorem current_range_derived_witness :
    benchCurr._measure = "CURR" ∧
    (configure benchPlatform benchCurr).1._iRange =
      (if benchCurr._iRange = 0 then benchPlatform.autorange benchCurr._forceValue
       else benchCurr._iRange) :=
  ⟨by decide, (current_range_derived benchPlatform benchCurr (by decide)).1⟩

/-- C4: for a platform whose count of configured sites is one that the `int`
sum `physicalSites + 1` can hold, that sum does not wrap, the first-invocation
configuration leaves `results` and `funcResults` with exactly
`GET_CONFIGURED_SITES + 1` slots whatever their lengths were before, the rest of
`execute` keeps both lengths, and `serialProcessing` and
`SMC_backgroundProcessing` return the member variables as they found them. -/
theorem result_storage_length {V : Type} [IntCast V] (p q : Platform V) (self : DCMeasurement V)
    (site : Int) :
    wrapInt32 ((p.GET_CONFIGURED_SITES : Int) + 1) = (p.GET_CONFIGURED_SITES : Int) + 1 ∧
    (configure p self).1.results.length = p.GET_CONFIGURED_SITES + 1 ∧
    (configure p self).1.funcResults.length = p.GET_CONFIGURED_SITES + 1 ∧
    (execute p true self).self.results.length = p.GET_CONFIGURED_SITES + 1 ∧
    (execute p true self).self.funcResults.length = p.GET_CONFIGURED_SITES + 1 ∧
    (serialProcessing q (execute p true self).self site).self = (execute p true self).self ∧
    (SMC_backgroundProcessing q (execute p true self).self).self = (execute p true self).self := by
  refine ⟨(physicalSites_succ p).1, ?_, ?_, (execute_lengths p self).2.1,
    (execute_lengths p self).1, serialProcessing_self _ _ _, SMC_backgroundProcessing_self _ _⟩
  · rw [configure_self]
    exact length_resize _ _ _
  · rw [configure_self]
    exact length_resize _ _ _

/-- C4, on the bench: 4 configured sites give 5 slots in both vectors. -/
theorem result_storage_length_witness :
    benchPlatform.GET_CONFIGURED_SITES = 4 ∧
    (configure benchPlatform benchVolt).1.results.length = 5 ∧
    (configure benchPlatform benchVolt).1.funcResults.length = 5 ∧
    (execute benchPlatform true benchVolt).self.results.length = 5 ∧
    (execute benchPlatform true benchVolt).self.funcResults.length = 5 :=
  ⟨rfl, (result_storage_length benchPlatform benchPlatform benchVolt 1).2.1,
    (result_storage_length benchPlatform benchPlatform benchVolt 1).2.2.1,
    (result_storage_length benchPlatform benchPlatform benchVolt 1).2.2.2.1,
    (result_storage_length benchPlatform benchPlatform benchVolt 1).2.2.2.2.1⟩

/-- C5: in a first invocation of `execute` the shutdown pattern, the pattern run
`f2` labelled with the configured `_shutdownPattern`, is executed exactly once
when `_applyShutdown` is non-zero and `preTestFunc()` returns true, whatever
`holdStateFunc()` returns, and is not executed otherwise. -/
theorem shutdown_pattern_runs {V : Type} [IntCast V] (p : Platform V) (self : DCMeasurement V) :
    (execute p true self).trace.filter (Action.isFuncExecute "f2") =
      if self._applyShutdown ≠ 0 ∧ p.preTestFunc = true then
        [.funcExecute "f2"
          (if self._shutdownPattern = "" then p.getLabel ++ "_part1" else self._shutdownPattern)]
      else [] := by
  rw [filter_execute_trace p self _ (by intro a ha; cases a <;> first | rfl | cases ha)]
  rw [configure_self]
  unfold rdiTransaction pretestBody measurement
  cases p.preTestFunc <;> cases p.holdStateFunc <;>
    by_cases h1 : self._applyShutdown = 0 <;> by_cases h2 : self._shutdownPattern = "" <;>
    by_cases h3 : self._measure = "VOLT" <;>
    simp [h1, h2, h3, List.filter, Action.isFuncExecute]

/-- C6, as stated, fails: with the shutdown switched off and no shutdown
pattern supplied, the configuration leaves the shutdown-pattern label empty. -/
theorem default_label_skipped_without_shutdown :
    benchNoShutdown._applyShutdown = 0 ∧ benchNoShutdown._shutdownPattern = "" ∧
    (configure benchPlatform benchNoShutdown).1.label = "main" ∧
    (configure benchPlatform benchNoShutdown).1._shutdownPattern = "" ∧
    (configure benchPlatform benchNoShutdown).1._shutdownPattern ≠ "main_part1" := by
  decide

/-- C6, amended: the configuration sets the shutdown-pattern label to the
current test label followed by `"_part1"` when `_applyShutdown` is non-zero and
no shutdown pattern was supplied; with `_applyShutdown` zero, or with a
non-empty shutdown pattern, the label is left as it was. -/
theorem default_shutdown_label {V : Type} [IntCast V] (p : Platform V) (self : DCMeasurement V) :
    (configure p self).1.label = p.getLabel ∧
    (configure p self).1._shutdownPattern =
      if self._applyShutdown ≠ 0 ∧ self._shutdownPattern = "" then p.getLabel ++ "_part1"
      else self._shutdownPattern := by
  rw [configure_self]
  exact ⟨rfl, rfl⟩

/-- C7: a first invocation of `execute` issues exactly one DC measurement when
`preTestFunc()` and `holdStateFunc()` both return true and none otherwise, and
reaches `RDI_END()` and `postTestFunc()` in either case. The measurement forces
current and measures voltage when `_measure` is `"VOLT"`, and forces voltage and
measures current in the range `_iRange` otherwise (so for `"CURR"`), on the pin
returned by `extractPinsFromGroup` with the configured settling time. -/
theorem single_measurement {V : Type} [IntCast V] (p : Platform V) (self : DCMeasurement V) :
    (execute p true self).trace.filter Action.isDcExecute =
      (if p.preTestFunc = true ∧ p.holdStateFunc = true then
        [.dcExecute
          (if self._measure = "VOLT" then
            { id := p.GET_TESTSUITE_NAME
              pin := some (p.extractPinsFromGroup self._pin)
              force := some (.iForce self._forceValue)
              relay := some (.ppmuRly_onPPMU_offACDC, .ppmuRly_onAC_offDCPPMU)
              measWait := some self._settlingTime
              iRange := none
              meas := some .vMeas }
          else
            { id := p.GET_TESTSUITE_NAME
              pin := some (p.extractPinsFromGroup self._pin)
              force := some (.vForce self._forceValue)
              relay := some (.ppmuRly_onPPMU_offACDC, .ppmuRly_onAC_offDCPPMU)
              measWait := some self._settlingTime
              iRange := some (if self._iRange = 0 ∧ self._measure = "CURR" then
                p.autorange self._forceValue else self._iRange)
              meas := some .iMeas })]
      else []) ∧
    Action.RDI_END ∈ (execute p true self).trace ∧
    Action.postTestFunc ∈ (execute p true self).trace := by
  refine ⟨?_, ?_, ?_⟩
  · rw [filter_execute_trace p self _ (by intro a ha; cases a <;> first | rfl | cases ha)]
    rw [configure_self]
    unfold rdiTransaction pretestBody measurement voltMeasurement currMeasurement rdi_dc
    cases p.preTestFunc <;> cases p.holdStateFunc <;>
      by_cases h1 : self._applyShutdown = 0 <;>
      by_cases h3 : self._measure = "VOLT" <;>
      simp [h1, h3, List.filter, Action.isDcExecute]
  · rw [execute_trace]
    simp [rdiTransaction]
  · rw [execute_trace]
    simp [rdiTransaction]

/-- C8: the calls of a first invocation of `execute` split into a part before
the single `RDI_BEGIN()`, a part between it and the single `RDI_END()`, and a part
after. Pattern executions and the measurement occur only in the middle part, in
the order `f1`, measurement, `f2`; `postTestFunc()` and the per-site result reads
occur only in the last part, which starts with `postTestFunc()`. -/
theorem rdi_bracket_order {V : Type} [IntCast V] (p : Platform V) (self : DCMeasurement V) :
    ∃ before inside after : List (Action V),
      (execute p true self).trace = before ++ .RDI_BEGIN :: inside ++ .RDI_END :: after ∧
      before.all (fun a => !a.isBracket && !a.isPatternOrMeasurement && !a.isPostOrRead) = true ∧
      inside.all (fun a => !a.isBracket && !a.isPostOrRead) = true ∧
      inside.filter Action.isPatternOrMeasurement =
        (if p.preTestFunc = true then
          [.funcExecute "f1" p.getLabel]
            ++ (if p.holdStateFunc = true then measurement (configure p self).1 else [])
            ++ (if self._applyShutdown ≠ 0 then
                [.funcExecute "f2" (configure p self).1._shutdownPattern] else [])
        else []) ∧
      after.all (fun a => !a.isBracket && !a.isPatternOrMeasurement) = true ∧
      after.head? = some .postTestFunc := by
  refine ⟨.RDI_INIT :: (configure p self).2,
    .preTestFunc :: (if p.preTestFunc then pretestBody p (configure p self).1 else []),
    .postTestFunc :: ((forEachSite p p.GET_ACTIVE_SITES (configure p self).1).trace ++
        (if (forEachSite p p.GET_ACTIVE_SITES (configure p self).1).fault = none then
          [.asyncProcessing, .finalProcessing] else [])), ?_, ?_, ?_, ?_, ?_, rfl⟩
  · rw [execute_trace]
    simp [rdiTransaction]
  · rw [configure_trace]
    by_cases h : self._iRange = 0 ∧ self._measure = "CURR" <;>
      simp [h, Action.isBracket, Action.isPatternOrMeasurement, Action.isPostOrRead,
        Action.isResultRead]
  · unfold pretestBody measurement
    cases p.preTestFunc <;> cases p.holdStateFunc <;>
      by_cases h1 : (configure p self).1._applyShutdown = 0 <;>
      by_cases h3 : (configure p self).1._measure = "VOLT" <;>
      simp [h1, h3, Action.isBracket, Action.isPostOrRead, Action.isResultRead]
  · have ha : (configure p self).1._applyShutdown = self._applyShutdown := by
      rw [configure_self]
    have hl : (configure p self).1.label = p.getLabel := by
      rw [configure_self]
    unfold pretestBody measurement
    rw [ha, hl]
    cases p.preTestFunc <;> cases p.holdStateFunc <;>
      by_cases h1 : self._applyShutdown = 0 <;>
      by_cases h3 : (configure p self).1._measure = "VOLT" <;>
      simp [h1, h3, List.filter, Action.isPatternOrMeasurement]
  · rw [List.all_eq_true]
    intro a ha
    simp only [List.mem_cons, List.mem_append] at ha
    rcases ha with rfl | ha | ha
    · rfl
    · have := forEachSite_trace p _ _ a ha
      cases a <;> first | rfl | cases this
    · split at ha
      · simp only [List.mem_cons, List.mem_singleton, List.not_mem_nil, or_false] at ha
        rcases ha with rfl | rfl <;> rfl
      · cases ha

/-- C9: on an instance whose active sites all lie inside both result vectors,
`SMC_backgroundProcessing` with `processFunc()` true emits, for each active site
in `activeSites` order, the judgement of `funcResults[site]` against
`LIMIT(TM::GE, 1, TM::LE, 1)` followed by the judgement of
`filterResult(results[site])` against the member `limits` for pin `_pin`, and
nothing else between `processFunc()` and `postProcessFunc()`; with
`processFunc()` false it emits no judgement. `serialProcessing(site)` judges the
same two values of the site, and the strict limit passes exactly the value
one. -/
theorem background_judgements {V : Type} [LinearOrder V] [IntCast V] (p : Platform V)
    (self : DCMeasurement V)
    (h : ∀ s ∈ self.activeSites, inBounds s self.funcResults.length = true ∧
      inBounds s self.results.length = true) :
    (SMC_backgroundProcessing p self).trace =
      .processFunc ::
        ((if p.processFunc = true then
          self.activeSites.flatMap fun s =>
            [Action.SMC_TEST s "" self.testSuiteName strictLimit
                (((self.funcResults.getD s.toNat 0 : Int)) : V),
              Action.SMC_TEST s self._pin self.testSuiteName self.limits
                (p.filterResult (self.results.getD s.toNat ((0 : Int) : V)))]
          else []) ++ [.postProcessFunc]) ∧
    (∀ s ∈ self.activeSites,
      (serialProcessing p self s).trace =
        [.judgeAndLog_FunctionalTest (self.funcResults.getD s.toNat 0),
          .judgeAndLog_ParametricTest self._pin self.testSuiteName self.limits
            (p.filterResult (self.results.getD s.toNat ((0 : Int) : V)))]) ∧
    (∀ v : V, (strictLimit : LIMIT V).passes v = true ↔ v = ((1 : Int) : V)) := by
  refine ⟨?_, ?_, strictLimit_passes⟩
  · unfold SMC_backgroundProcessing
    cases hp : p.processFunc
    · simp
    · simp [smcLoop_ok p self ((0 : Int) : V) _ h]
  · intro s hs
    rw [serialProcessing_ok p self s ((0 : Int) : V) (h s hs).1 (h s hs).2]

/-- C9, on the bench: the instance left by a first invocation. -/
theorem background_judgements_witness :
    (∀ s ∈ (execute benchPlatform true benchVolt).self.activeSites,
      inBounds s (execute benchPlatform true benchVolt).self.funcResults.length = true ∧
      inBounds s (execute benchPlatform true benchVolt).self.results.length = true) ∧
    (SMC_backgroundProcessing benchPlatform (execute benchPlatform true benchVolt).self).trace =
      [.processFunc,
        .SMC_TEST 1 "" "dc_meas" strictLimit 1,
        .SMC_TEST 1 "vdd" "dc_meas" (benchPlatform.GET_LIMIT_OBJECT "Functional") 10,
        .SMC_TEST 3 "" "dc_meas" strictLimit 0,
        .SMC_TEST 3 "vdd" "dc_meas" (benchPlatform.GET_LIMIT_OBJECT "Functional") 30,
        .postProcessFunc] :=
  ⟨by decide,
    (background_judgements benchPlatform (execute benchPlatform true benchVolt).self
      (by decide)).1⟩

/-- C10: when every active site lies between 1 and the configured count, no
access to `funcResults` or `results` made by the finalization loop of `execute`,
by `serialProcessing` on an active site or by `SMC_backgroundProcessing` leaves
the storage, and slot 0 of both vectors still holds what the resize left
there. -/
theorem site_accesses_in_bounds {V : Type} [IntCast V] (p q : Platform V)
    (self : DCMeasurement V)
    (h : ∀ s ∈ p.GET_ACTIVE_SITES, 1 ≤ s ∧ s ≤ (p.GET_CONFIGURED_SITES : Int)) :
    (execute p true self).fault = none ∧
    (∀ s ∈ p.GET_ACTIVE_SITES, (serialProcessing q (execute p true self).self s).fault = none) ∧
    (SMC_backgroundProcessing q (execute p true self).self).fault = none ∧
    (execute p true self).self.funcResults[0]? =
      (resize self.funcResults (p.GET_CONFIGURED_SITES + 1) 0)[0]? ∧
    (execute p true self).self.results[0]? =
      (resize self.results (p.GET_CONFIGURED_SITES + 1) ((0 : Int) : V))[0]? := by
  have hb : ∀ s ∈ p.GET_ACTIVE_SITES,
      inBounds s (configure p self).1.funcResults.length = true ∧
      inBounds s (configure p self).1.results.length = true := by
    intro s hs
    rw [configure_self]
    simp only [length_resize]
    have := h s hs
    exact ⟨inBounds_of_le s _ (by omega) this.2, inBounds_of_le s _ (by omega) this.2⟩
  obtain ⟨h0, h1, h2⟩ := forEachSite_spec p p.GET_ACTIVE_SITES (configure p self).1 hb
  obtain ⟨l1, l2, l3⟩ := execute_lengths p self
  have hz : ¬ ((0 : Nat) : Int) ∈ p.GET_ACTIVE_SITES := by
    intro hmem
    have := (h _ hmem).1
    omega
  have hb' : ∀ s ∈ (execute p true self).self.activeSites,
      inBounds s (execute p true self).self.funcResults.length = true ∧
      inBounds s (execute p true self).self.results.length = true := by
    intro s hs
    rw [l3] at hs
    rw [l1, l2]
    have := h s hs
    exact ⟨inBounds_of_le s _ (by omega) this.2, inBounds_of_le s _ (by omega) this.2⟩
  refine ⟨by rw [execute_fault]; exact h0, ?_, ?_, ?_, ?_⟩
  · intro s hs
    have := hb' s (by rw [l3]; exact hs)
    rw [serialProcessing_ok q _ s ((0 : Int) : V) this.1 this.2]
  · unfold SMC_backgroundProcessing
    split
    · simp only [smcLoop_ok q _ ((0 : Int) : V) _ hb']
    · rfl
  · have := h1 0
    rw [if_neg hz] at this
    rw [execute_self, this, configure_self]
  · have := h2 0
    rw [if_neg hz] at this
    rw [execute_self, this, configure_self]

/-- C10, on the bench: sites 1 and 3 active out of 4 configured ones. -/
theorem site_accesses_in_bounds_witness :
    (∀ s ∈ benchPlatform.GET_ACTIVE_SITES, 1 ≤ s ∧ s ≤ (benchPlatform.GET_CONFIGURED_SITES : Int)) ∧
    ((execute benchPlatform true benchCurr).fault = none ∧
    (∀ s ∈ benchPlatform.GET_ACTIVE_SITES,
      (serialProcessing benchPlatform (execute benchPlatform true benchCurr).self s).fault = none) ∧
    (SMC_backgroundProcessing benchPlatform (execute benchPlatform true benchCurr).self).fault = none ∧
    (execute benchPlatform true benchCurr).self.funcResults[0]? =
      (resize benchCurr.funcResults (benchPlatform.GET_CONFIGURED_SITES + 1) 0)[0]? ∧
    (execute benchPlatform true benchCurr).self.results[0]? =
      (resize benchCurr.results (benchPlatform.GET_CONFIGURED_SITES + 1) ((0 : Int) : Int))[0]?) :=
  ⟨by decide, site_accesses_in_bounds benchPlatform benchPlatform benchCurr (by decide)⟩

end TestMethod
end Origen
